import Mathlib

/-!
Shallow embedding of the Spark Search application (src/app.py) and proofs of
the specified properties of its filter-and-search pipeline.

The source is a single Streamlit application class `SparkSearchApp`.  Widget
interactions (multiselect, radio, text input, slider, button) are modelled as
explicit inputs; UI side effects (st.warning, st.error, st.success, st.slider
configuration, logging) are modelled as explicit outputs; the external
`Database` collaborator and filesystem effects are modelled by an environment
recording the outcome of each call.  Python floats on the numeric paths are
modelled exactly as rationals; pandas column dtypes are modelled by a tagged
column representation (numeric vs text).
-/

namespace Spark

/-- A pandas column of the session dataframe: `numeric` models dtype
`float64` or `int64` (line 132 of app.py), `text` models any other dtype. -/
inductive ColumnData
  | numeric (values : List ℚ)
  | text (values : List String)
  deriving DecidableEq, Repr

/-- The session dataframe `st.session_state.df`: an association of column
names to column data. -/
abbrev Table := List (String × ColumnData)

/-- The slice of `st.session_state` that `create_search_filters` reads
(lines 99 and 130): the stored column list and the stored dataframe. -/
structure SessionState where
  columns : List String
  df : Option Table
  deriving DecidableEq, Repr

/-- One entry of the filters dictionary built by `create_search_filters`:
`{"text": value}` (line 127) or `{"range": range_val}` (lines 156-158). -/
inductive Filter
  | text (pattern : String)
  | range (low high : ℚ)
  deriving DecidableEq, Repr

/-- The filters dictionary: column name to filter entry. -/
abbrev FilterSpec := List (String × Filter)

/-- User-visible warnings emitted via `st.warning` inside
`create_search_filters` (lines 100, 113, 160). -/
inductive Warning
  | uploadFirst
  | selectColumn
  | notNumeric (column : String)
  deriving DecidableEq, Repr

/-- The configuration passed to `st.slider` for one range column
(lines 145-154): bounds, default value pair and step. -/
structure SliderConfig where
  column : String
  minValue : ℚ
  maxValue : ℚ
  defaultLow : ℚ
  defaultHigh : ℚ
  step : ℚ
  deriving DecidableEq, Repr

/-- The per-column user interaction in the filter form: the radio choice
(line 117) together with the widget value for that choice.  `textSearch`
carries the `st.text_input` content (line 125, default empty);
`rangeSearch` carries the `st.slider` position, `none` meaning the user
kept the default `(min_val, max_val)` (line 149). -/
inductive FilterChoice
  | textSearch (input : String)
  | rangeSearch (chosen : Option (ℚ × ℚ))
  deriving DecidableEq, Repr

/-- Looks up the interaction recorded for a column; an absent record means
the widget defaults: radio on its first option "Text Search" and an empty
text input. -/
def lookupChoice (choices : List (String × FilterChoice)) (c : String) : FilterChoice :=
  (choices.lookup c).getD (.textSearch "")

/-- Everything `create_search_filters` produces: the returned filters
dictionary plus the UI effects (warnings shown, slider configurations
rendered). -/
structure FilterFormResult where
  filters : FilterSpec
  warnings : List Warning
  sliders : List SliderConfig
  deriving DecidableEq, Repr

/-- Concatenation of form results, used to sequence the per-column loop. -/
def FilterFormResult.append (a b : FilterFormResult) : FilterFormResult :=
  ⟨a.filters ++ b.filters, a.warnings ++ b.warnings, a.sliders ++ b.sliders⟩

/-- Minimum of a numeric column, `column_data.min()` (line 133); the empty
case never arises for a parsed dataframe column with rows. -/
def listMin : List ℚ → ℚ
  | [] => 0
  | x :: xs => xs.foldl min x

/-- Maximum of a numeric column, `column_data.max()` (line 134). -/
def listMax : List ℚ → ℚ
  | [] => 0
  | x :: xs => xs.foldl max x

/-- Lines 136-138: if min and max coincide the upper bound is widened to
`min_val + 1000`; otherwise the observed maximum is kept. -/
def widenedMax (m M : ℚ) : ℚ := if m = M then m + 1000 else M

/-- The slider configuration built for a numeric column (lines 133-154):
bounds `[min_val, max_val]` after the degenerate-case widening, default
value `(min_val, max_val)`, step `max(value_range / 100.0, 1000.0)`. -/
def sliderFor (c : String) (vs : List ℚ) : SliderConfig :=
  let m := listMin vs
  let M := widenedMax m (listMax vs)
  ⟨c, m, M, m, M, max ((M - m) / 100) 1000⟩

/-- The loop body of `create_search_filters` for one selected column
(lines 116-161).  Text search: the entry is added only when the input is
non-empty (line 126).  Range search on a numeric column: a slider is
rendered and its value becomes the range entry.  Range search on a
non-numeric column: a warning, no entry (line 160).  The `none` column
lookup case is unreachable in the application because the multiselect
options are exactly the dataframe columns (line 107). -/
def processColumn (df : Table) (choices : List (String × FilterChoice))
    (c : String) : FilterFormResult :=
  match lookupChoice choices c with
  | .textSearch t => if t = "" then ⟨[], [], []⟩ else ⟨[(c, .text t)], [], []⟩
  | .rangeSearch chosen =>
    match df.lookup c with
    | some (.numeric vs) =>
        let cfg := sliderFor c vs
        let rv := chosen.getD (cfg.minValue, cfg.maxValue)
        ⟨[(c, .range rv.1 rv.2)], [], [cfg]⟩
    | some (.text _) => ⟨[], [.notNumeric c], []⟩
    | none => ⟨[], [], []⟩

/-- The `for column in selected_columns` loop (line 116), sequencing the
per-column contributions in selection order. -/
def processColumns (df : Table) (choices : List (String × FilterChoice)) :
    List String → FilterFormResult
  | [] => ⟨[], [], []⟩
  | c :: rest =>
      (processColumn df choices c).append (processColumns df choices rest)

/-- `SparkSearchApp.create_search_filters` (lines 97-162).  Guard clauses:
no stored columns or no stored dataframe yields an upload-first warning and
an empty dictionary (lines 99-101); an empty multiselect yields a
select-column warning and an empty dictionary (lines 112-114); otherwise
the per-column loop builds the dictionary. -/
def create_search_filters (st : SessionState) (selected : List String)
    (choices : List (String × FilterChoice)) : FilterFormResult :=
  match st.df with
  | none => ⟨[], [.uploadFirst], []⟩
  | some df =>
      if st.columns = [] then ⟨[], [.uploadFirst], []⟩
      else if selected = [] then ⟨[], [.selectColumn], []⟩
      else processColumns df choices selected

/-! ## Upload handling (`handle_file_upload`, `render_sidebar`) -/

/-- An uploaded file as seen by the upload handler: only the filename
matters for the control flow modelled here. -/
structure FileData where
  name : String
  deriving DecidableEq, Repr

/-- Environment recording the outcome of the external effects performed by
`handle_file_upload` (lines 44-74): whether the pandas parse succeeds
(lines 47-50), whether the `NamedTemporaryFile` block completes
(lines 55-57, modelled atomically), the outcome of `db.insert_data`
(line 60, `Except.error` models a raised exception), and whether
`os.unlink` raises (line 68). -/
structure UploadEnv where
  parseOk : Bool
  tempCreateOk : Bool
  insertOutcome : Except String (Bool × String)
  unlinkFails : Bool
  deriving Repr

/-- Observable outcome of one `handle_file_upload` call: which effects ran,
what was shown, whether anything escaped the method. -/
structure UploadResult where
  tempCreated : Bool
  unlinkAttempted : Bool
  tempRemoved : Bool
  ingestionAttempted : Bool
  cleanupErrorLogged : Bool
  successShown : Bool
  errorShown : Bool
  fatal : Bool
  deriving DecidableEq, Repr

/-- `SparkSearchApp.handle_file_upload` (lines 44-74).  A parse failure is
caught by the outer `except` (line 72) before any temp file exists.  Once
the temp file is written, `insert_data` runs inside `try`, and the
`finally` block (lines 65-70) always attempts `os.unlink`; a raised unlink
is caught and logged (line 70).  An `insert_data` exception propagates past
the `finally` to the outer `except`, so no path is fatal. -/
def handle_file_upload (env : UploadEnv) : UploadResult :=
  if !env.parseOk then
    { tempCreated := false, unlinkAttempted := false, tempRemoved := false,
      ingestionAttempted := false, cleanupErrorLogged := false,
      successShown := false, errorShown := true, fatal := false }
  else if !env.tempCreateOk then
    { tempCreated := false, unlinkAttempted := false, tempRemoved := false,
      ingestionAttempted := false, cleanupErrorLogged := false,
      successShown := false, errorShown := true, fatal := false }
  else
    let removed := !env.unlinkFails
    let logged := env.unlinkFails
    match env.insertOutcome with
    | .ok (true, _) =>
        { tempCreated := true, unlinkAttempted := true, tempRemoved := removed,
          ingestionAttempted := true, cleanupErrorLogged := logged,
          successShown := true, errorShown := false, fatal := false }
    | .ok (false, _) =>
        { tempCreated := true, unlinkAttempted := true, tempRemoved := removed,
          ingestionAttempted := true, cleanupErrorLogged := logged,
          successShown := false, errorShown := true, fatal := false }
    | .error _ =>
        { tempCreated := true, unlinkAttempted := true, tempRemoved := removed,
          ingestionAttempted := true, cleanupErrorLogged := logged,
          successShown := false, errorShown := true, fatal := false }

/-- The extension whitelist of the `st.file_uploader` widget
(line 82): `type=["csv", "xlsx", "xls"]`. -/
def fileUploaderTypes : List String := ["csv", "xlsx", "xls"]

/-- Suffix test on strings, modelling Python `str.endswith`: the last
characters of `s` spell `suff`. -/
def strEndsWith (s suff : String) : Bool :=
  s.toList.reverse.take suff.toList.length == suff.toList.reverse

/-- Whether the widget accepts a filename: its extension is on the
whitelist. -/
def extensionAccepted (name : String) : Bool :=
  fileUploaderTypes.any (fun t => strEndsWith name ("." ++ t))

/-- Outcome of the sidebar upload interaction (lines 80-87): no file, file
rejected by the widget because of its extension (the unsupported-format
failure: `handle_file_upload` is never reached), or file handled. -/
inductive SidebarOutcome
  | noFile
  | unsupportedFormat
  | handled (r : UploadResult)
  deriving DecidableEq, Repr

/-- `SparkSearchApp.render_sidebar` upload path (lines 80-87): the widget
delivers the file to `handle_file_upload` only when its extension is
accepted. -/
def render_sidebar_upload (file : Option FileData) (env : UploadEnv) :
    SidebarOutcome :=
  match file with
  | none => .noFile
  | some f =>
      if extensionAccepted f.name then .handled (handle_file_upload env)
      else .unsupportedFormat

/-- Whether `db.insert_data` was called in the outcome. -/
def SidebarOutcome.ingestionAttempted : SidebarOutcome → Bool
  | .handled r => r.ingestionAttempted
  | _ => false

/-- Whether a transient file was created and not removed in the outcome. -/
def SidebarOutcome.tempFileLeft : SidebarOutcome → Bool
  | .handled r => r.tempCreated && !r.tempRemoved
  | _ => false

/-! ## Dashboard search guard (`render_dashboard`) -/

/-- One observation of the search-button block of `render_dashboard`
(lines 187-193): whether `db.search_resumes` was called, with which
argument, and whether the no-criteria warning was shown instead. -/
structure DashboardSearch where
  searchCalled : Bool
  searchArg : Option FilterSpec
  warnedNoCriteria : Bool
  deriving DecidableEq, Repr

/-- The search-button block of `SparkSearchApp.render_dashboard`
(lines 187-193): on a click, `if filters:` routes an empty dictionary to
`st.warning` and a non-empty one to `db.search_resumes(filters)`. -/
def render_dashboard_search (filters : FilterSpec) (clicked : Bool) :
    DashboardSearch :=
  if clicked then
    if filters.isEmpty then ⟨false, none, true⟩
    else ⟨true, some filters, false⟩
  else ⟨false, none, false⟩

/-! ## Login (`render_login_page`) -/

/-- The hard-coded username (line 174). -/
def hardcodedUsername : String := "Admin"

/-- The hard-coded password (line 174). -/
def hardcodedPassword : String := "Admin@123"

/-- Observable outcome of `render_login_page`: the session flag
`st.session_state.logged_in` afterwards and which message was shown. -/
structure LoginResult where
  loggedIn : Bool
  successShown : Bool
  errorShown : Bool
  deriving DecidableEq, Repr

/-- `SparkSearchApp.render_login_page` (lines 164-179): on a click of the
login button, a credential pair equal to the hard-coded one sets the
session flag and shows success; any other pair shows an error and leaves
the flag untouched. -/
def render_login_page (prevLoggedIn : Bool) (clicked : Bool)
    (username password : String) : LoginResult :=
  if clicked then
    if username = hardcodedUsername ∧ password = hardcodedPassword then
      ⟨true, true, false⟩
    else ⟨prevLoggedIn, false, true⟩
  else ⟨prevLoggedIn, false, false⟩

/-! ## Salary conversion (`convert_salary_to_number`) -/

/-- Value of a digit string, as `float` parses an all-digit string exactly
(the magnitudes here stay well inside exact double range is irrelevant to
the claims, which concern sign and totality, so the value is kept exact). -/
def digitsToNat (l : List Char) : ℕ :=
  l.foldl (fun acc c => acc * 10 + (c.toNat - Char.toNat '0')) 0

/-- `SparkSearchApp.convert_salary_to_number` (lines 34-42), applied to the
string form of the input (`str(salary_str)` is total, so quantifying over
all strings covers every input value).  Every character other than a digit
or a comma is dropped, commas are then removed, and `float` of the
remaining digit string either parses (non-empty) or raises `ValueError`
(empty), which the handler maps to `None`. -/
def convert_salary_to_number (salary_str : String) : Option ℚ :=
  let cleaned := salary_str.toList.filter (fun c => c.isDigit || c == ',')
  let noCommas := cleaned.filter (fun c => c != ',')
  if noCommas.isEmpty then none
  else some ((digitsToNat noCommas : ℚ))

/-! ## Structure of the per-column loop -/

theorem mem_processColumns_filters {df : Table}
    {choices : List (String × FilterChoice)} {p : String × Filter}
    {l : List String} :
    p ∈ (processColumns df choices l).filters ↔
      ∃ c, c ∈ l ∧ p ∈ (processColumn df choices c).filters := by
  induction l with
  | nil => simp [processColumns]
  | cons x xs ih =>
      simp only [processColumns, FilterFormResult.append, List.mem_append, ih,
        List.mem_cons]
      constructor
      · rintro (h | ⟨c, hc, hp⟩)
        · exact ⟨x, Or.inl rfl, h⟩
        · exact ⟨c, Or.inr hc, hp⟩
      · rintro ⟨c, hc | hc, hp⟩
        · exact Or.inl (hc ▸ hp)
        · exact Or.inr ⟨c, hc, hp⟩

theorem mem_processColumns_warnings {df : Table}
    {choices : List (String × FilterChoice)} {w : Warning}
    {l : List String} :
    w ∈ (processColumns df choices l).warnings ↔
      ∃ c, c ∈ l ∧ w ∈ (processColumn df choices c).warnings := by
  induction l with
  | nil => simp [processColumns]
  | cons x xs ih =>
      simp only [processColumns, FilterFormResult.append, List.mem_append, ih,
        List.mem_cons]
      constructor
      · rintro (h | ⟨c, hc, hp⟩)
        · exact ⟨x, Or.inl rfl, h⟩
        · exact ⟨c, Or.inr hc, hp⟩
      · rintro ⟨c, hc | hc, hp⟩
        · exact Or.inl (hc ▸ hp)
        · exact Or.inr ⟨c, hc, hp⟩

theorem mem_processColumns_sliders {df : Table}
    {choices : List (String × FilterChoice)} {cfg : SliderConfig}
    {l : List String} :
    cfg ∈ (processColumns df choices l).sliders ↔
      ∃ c, c ∈ l ∧ cfg ∈ (processColumn df choices c).sliders := by
  induction l with
  | nil => simp [processColumns]
  | cons x xs ih =>
      simp only [processColumns, FilterFormResult.append, List.mem_append, ih,
        List.mem_cons]
      constructor
      · rintro (h | ⟨c, hc, hp⟩)
        · exact ⟨x, Or.inl rfl, h⟩
        · exact ⟨c, Or.inr hc, hp⟩
      · rintro ⟨c, hc | hc, hp⟩
        · exact Or.inl (hc ▸ hp)
        · exact Or.inr ⟨c, hc, hp⟩

/-- Every filters entry contributed by processing column `c` has key `c`. -/
theorem processColumn_filters_key {df : Table}
    {choices : List (String × FilterChoice)} {c k : String} {f : Filter}
    (h : (k, f) ∈ (processColumn df choices c).filters) : k = c := by
  unfold processColumn at h
  cases hch : lookupChoice choices c with
  | textSearch t =>
      rw [hch] at h
      by_cases ht : t = "" <;> simp [ht] at h
      exact h.1
  | rangeSearch chosen =>
      rw [hch] at h
      cases hcol : df.lookup c with
      | none => rw [hcol] at h; simp at h
      | some cd =>
          rw [hcol] at h
          cases cd with
          | numeric vs => simp at h; exact h.1
          | text vs => simp at h

/-- Every slider contributed by processing column `c` is the configuration
for the numeric data of `c`. -/
theorem processColumn_sliders_eq {df : Table}
    {choices : List (String × FilterChoice)} {c : String} {cfg : SliderConfig}
    (h : cfg ∈ (processColumn df choices c).sliders) :
    ∃ vs, df.lookup c = some (.numeric vs) ∧ cfg = sliderFor c vs := by
  unfold processColumn at h
  cases hch : lookupChoice choices c with
  | textSearch t =>
      rw [hch] at h
      by_cases ht : t = "" <;> simp [ht] at h
  | rangeSearch chosen =>
      rw [hch] at h
      cases hcol : df.lookup c with
      | none => rw [hcol] at h; simp at h
      | some cd =>
          rw [hcol] at h
          cases cd with
          | numeric vs => simp at h; exact ⟨vs, rfl, h⟩
          | text vs => simp at h

/-- Columns whose contribution has no filters entry can be dropped from the
selection without changing the resulting filters dictionary. -/
theorem processColumns_filters_skip {df : Table}
    {choices : List (String × FilterChoice)} {c : String}
    (h : (processColumn df choices c).filters = [])
    (l : List String) :
    (processColumns df choices l).filters =
      (processColumns df choices (l.filter (fun x => x != c))).filters := by
  induction l with
  | nil => rfl
  | cons x xs ih =>
      by_cases hx : x = c
      · subst hx
        simp only [List.filter_cons, bne_self_eq_false, cond_false]
        simp [processColumns, FilterFormResult.append, h, ih]
      · have hbne : (x != c) = true := bne_iff_ne.mpr hx
        simp only [List.filter_cons, hbne, cond_true]
        simp [processColumns, FilterFormResult.append, ih]

/-- A filters dictionary with no entry keyed `c` answers `none` to a lookup
of `c`. -/
theorem filters_lookup_none {l : FilterSpec} {c : String}
    (h : ∀ f, (c, f) ∉ l) : l.lookup c = none := by
  induction l with
  | nil => rfl
  | cons p t ih =>
      obtain ⟨k, v⟩ := p
      by_cases hk : c = k
      · exact absurd (hk ▸ List.mem_cons_self (c, v) t) (h v)
      · have hbeq : (c == k) = false := beq_eq_false_iff_ne.mpr hk
        simp only [List.lookup, hbeq]
        exact ih (fun f hf => h f (List.mem_cons_of_mem _ hf))

/-! ## Claims -/

/-- C1: an uploaded file whose filename extension is none of `.csv`,
`.xlsx` or `.xls` is rejected by the upload widget as an unsupported
format; `handle_file_upload` never runs, so no ingestion into the database
is attempted and no transient file is left behind. -/
theorem c1_unsupported_extension_rejected (f : FileData) (env : UploadEnv)
    (h : extensionAccepted f.name = false) :
    render_sidebar_upload (some f) env = SidebarOutcome.unsupportedFormat ∧
    (render_sidebar_upload (some f) env).ingestionAttempted = false ∧
    (render_sidebar_upload (some f) env).tempFileLeft = false := by
  have hr : render_sidebar_upload (some f) env = .unsupportedFormat := by
    simp [render_sidebar_upload, h]
  exact ⟨hr, by rw [hr]; rfl, by rw [hr]; rfl⟩

/-- Witness for C1 at the filename `resume.txt`. -/
theorem c1_witness :
    extensionAccepted "resume.txt" = false ∧
    (render_sidebar_upload (some ⟨"resume.txt"⟩)
        ⟨true, true, Except.ok (true, "ok"), false⟩ =
      SidebarOutcome.unsupportedFormat ∧
    (render_sidebar_upload (some ⟨"resume.txt"⟩)
        ⟨true, true, Except.ok (true, "ok"), false⟩).ingestionAttempted = false ∧
    (render_sidebar_upload (some ⟨"resume.txt"⟩)
        ⟨true, true, Except.ok (true, "ok"), false⟩).tempFileLeft = false) :=
  ⟨by decide, c1_unsupported_extension_rejected ⟨"resume.txt"⟩ _ (by decide)⟩

/-- C2: once the transient file has been created, the `finally` block
attempts its removal on the success path, the ingestion-failure path and
the ingestion-exception path alike; the removal succeeds exactly when
`os.unlink` does not raise, a raised unlink is only logged, and no path
lets an exception escape. -/
theorem c2_temp_file_cleanup (env : UploadEnv)
    (h : (handle_file_upload env).tempCreated = true) :
    (handle_file_upload env).unlinkAttempted = true ∧
    (handle_file_upload env).tempRemoved = !env.unlinkFails ∧
    (handle_file_upload env).cleanupErrorLogged = env.unlinkFails ∧
    (handle_file_upload env).fatal = false := by
  obtain ⟨p, t, ins, u⟩ := env
  cases p
  · simp [handle_file_upload] at h
  · cases t
    · simp [handle_file_upload] at h
    · cases ins with
      | error e => cases u <;> simp [handle_file_upload]
      | ok pr =>
          obtain ⟨b, m⟩ := pr
          cases b <;> cases u <;> simp [handle_file_upload]

/-- Witness for C2 on the path where ingestion raises and the unlink also
raises: the temp file was created, removal was attempted and failed, the
failure is logged and nothing is fatal. -/
theorem c2_witness :
    (handle_file_upload ⟨true, true, Except.error "db down", true⟩).tempCreated
      = true ∧
    ((handle_file_upload ⟨true, true, Except.error "db down", true⟩).unlinkAttempted
        = true ∧
     (handle_file_upload ⟨true, true, Except.error "db down", true⟩).tempRemoved
        = false ∧
     (handle_file_upload ⟨true, true, Except.error "db down", true⟩).cleanupErrorLogged
        = true ∧
     (handle_file_upload ⟨true, true, Except.error "db down", true⟩).fatal
        = false) :=
  ⟨rfl, c2_temp_file_cleanup ⟨true, true, Except.error "db down", true⟩ rfl⟩

/-- C3: the dashboard search block calls `db.search_resumes` exactly on a
button click with a non-empty filters dictionary, passing that dictionary;
on a click with an empty dictionary it shows the no-criteria warning
instead, so the search is never invoked with an empty FilterSpec. -/
theorem c3_empty_filterspec_guard (filters : FilterSpec) (clicked : Bool) :
    (render_dashboard_search filters clicked).searchCalled =
      (clicked && !filters.isEmpty) ∧
    (render_dashboard_search filters clicked).searchArg =
      (if clicked && !filters.isEmpty then some filters else none) ∧
    (render_dashboard_search filters clicked).warnedNoCriteria =
      (clicked && filters.isEmpty) := by
  cases clicked <;> cases filters <;> simp [render_dashboard_search]

/-- C4: a range filter requested on a non-numeric column yields the
not-numeric warning, no entry for that column in the filters dictionary,
the same filters dictionary as if the column had not been selected, and a
search click still goes through whenever the remaining filters are
non-empty. -/
theorem c4_range_on_text_column_omitted
    (st : SessionState) (df : Table) (selected : List String)
    (choices : List (String × FilterChoice)) (c : String)
    (ch : Option (ℚ × ℚ)) (vs : List String)
    (hdf : st.df = some df) (hcols : st.columns ≠ [])
    (hsel : selected ≠ []) (hc : c ∈ selected)
    (hch : lookupChoice choices c = .rangeSearch ch)
    (hcol : df.lookup c = some (.text vs)) :
    Warning.notNumeric c ∈ (create_search_filters st selected choices).warnings ∧
    (create_search_filters st selected choices).filters.lookup c = none ∧
    (create_search_filters st selected choices).filters =
      (processColumns df choices (selected.filter (fun x => x != c))).filters ∧
    ((create_search_filters st selected choices).filters ≠ [] →
      (render_dashboard_search
          (create_search_filters st selected choices).filters true).searchCalled
        = true) := by
  have hres : create_search_filters st selected choices =
      processColumns df choices selected := by
    unfold create_search_filters
    rw [hdf]
    simp [hcols, hsel]
  have hcontrib : processColumn df choices c =
      ⟨[], [Warning.notNumeric c], []⟩ := by
    simp [processColumn, hch, hcol]
  refine ⟨?_, ?_, ?_, ?_⟩
  · rw [hres]
    exact mem_processColumns_warnings.mpr
      ⟨c, hc, by rw [hcontrib]; exact List.mem_singleton_self _⟩
  · rw [hres]
    apply filters_lookup_none
    intro f hf
    obtain ⟨x, hx, hpf⟩ := mem_processColumns_filters.mp hf
    have hk := processColumn_filters_key hpf
    rw [← hk] at hpf
    rw [hcontrib] at hpf
    simp at hpf
  · rw [hres]
    exact processColumns_filters_skip (by rw [hcontrib]) selected
  · intro hne
    rcases hfil : (create_search_filters st selected choices).filters
      with _ | ⟨a, as⟩
    · exact absurd hfil hne
    · simp [render_dashboard_search]

/-- Witness for C4: a dataframe with a text column `name` and a numeric
column `salary`, both selected for range search; the `name` column is
warned about and dropped while the `salary` range filter survives. -/
theorem c4_witness :
    ((⟨["name", "salary"],
        some [("name", ColumnData.text ["A", "B"]),
              ("salary", ColumnData.numeric [50000, 150000])]⟩ :
        SessionState).df =
      some [("name", ColumnData.text ["A", "B"]),
            ("salary", ColumnData.numeric [50000, 150000])] ∧
     (["name", "salary"] : List String) ≠ [] ∧
     lookupChoice
        [("name", FilterChoice.rangeSearch none),
         ("salary", FilterChoice.rangeSearch none)] "name" =
       FilterChoice.rangeSearch none ∧
     ([("name", ColumnData.text ["A", "B"]),
       ("salary", ColumnData.numeric [50000, 150000])] : Table).lookup "name" =
       some (ColumnData.text ["A", "B"])) ∧
    (Warning.notNumeric "name" ∈
      (create_search_filters
        ⟨["name", "salary"],
          some [("name", ColumnData.text ["A", "B"]),
                ("salary", ColumnData.numeric [50000, 150000])]⟩
        ["name", "salary"]
        [("name", FilterChoice.rangeSearch none),
         ("salary", FilterChoice.rangeSearch none)]).warnings ∧
     (create_search_filters
        ⟨["name", "salary"],
          some [("name", ColumnData.text ["A", "B"]),
                ("salary", ColumnData.numeric [50000, 150000])]⟩
        ["name", "salary"]
        [("name", FilterChoice.rangeSearch none),
         ("salary", FilterChoice.rangeSearch none)]).filters.lookup "name" =
       none ∧
     (create_search_filters
        ⟨["name", "salary"],
          some [("name", ColumnData.text ["A", "B"]),
                ("salary", ColumnData.numeric [50000, 150000])]⟩
        ["name", "salary"]
        [("name", FilterChoice.rangeSearch none),
         ("salary", FilterChoice.rangeSearch none)]).filters =
       (processColumns
          [("name", ColumnData.text ["A", "B"]),
           ("salary", ColumnData.numeric [50000, 150000])]
          [("name", FilterChoice.rangeSearch none),
           ("salary", FilterChoice.rangeSearch none)]
          ((["name", "salary"] : List String).filter
            (fun x => x != "name"))).filters ∧
     ((create_search_filters
        ⟨["name", "salary"],
          some [("name", ColumnData.text ["A", "B"]),
                ("salary", ColumnData.numeric [50000, 150000])]⟩
        ["name", "salary"]
        [("name", FilterChoice.rangeSearch none),
         ("salary", FilterChoice.rangeSearch none)]).filters ≠ [] →
      (render_dashboard_search
          (create_search_filters
            ⟨["name", "salary"],
              some [("name", ColumnData.text ["A", "B"]),
                    ("salary", ColumnData.numeric [50000, 150000])]⟩
            ["name", "salary"]
            [("name", FilterChoice.rangeSearch none),
             ("salary", FilterChoice.rangeSearch none)]).filters
          true).searchCalled = true)) :=
  ⟨⟨rfl, by decide, by decide, by decide⟩,
   c4_range_on_text_column_omitted _ _ _ _ _ none ["A", "B"] rfl
     (by decide) (by decide) (by decide) (by decide) (by decide)⟩

/-- C5: a text selection on a column contributes the entry exactly when
the supplied pattern is non-empty; an empty pattern leaves the column out
of the filters dictionary entirely, with no error. -/
theorem c5_text_filter_iff_nonempty_pattern
    (st : SessionState) (df : Table) (selected : List String)
    (choices : List (String × FilterChoice)) (c : String) (t : String)
    (hdf : st.df = some df) (hcols : st.columns ≠ [])
    (hsel : selected ≠ []) (hc : c ∈ selected)
    (hch : lookupChoice choices c = .textSearch t) :
    ((c, Filter.text t) ∈ (create_search_filters st selected choices).filters ↔
      t ≠ "") ∧
    (t = "" →
      (create_search_filters st selected choices).filters.lookup c = none) := by
  have hres : create_search_filters st selected choices =
      processColumns df choices selected := by
    unfold create_search_filters
    rw [hdf]
    simp [hcols, hsel]
  constructor
  · constructor
    · intro hmem ht
      rw [hres] at hmem
      obtain ⟨x, hx, hpf⟩ := mem_processColumns_filters.mp hmem
      have hk := processColumn_filters_key hpf
      rw [← hk] at hpf
      simp [processColumn, hch, ht] at hpf
    · intro ht
      rw [hres]
      exact mem_processColumns_filters.mpr
        ⟨c, hc, by simp [processColumn, hch, ht]⟩
  · intro ht
    rw [hres]
    apply filters_lookup_none
    intro f hf
    obtain ⟨x, hx, hpf⟩ := mem_processColumns_filters.mp hf
    have hk := processColumn_filters_key hpf
    rw [← hk] at hpf
    simp [processColumn, hch, ht] at hpf

/-- Witness for C5: the pattern `A` on the text column `name` produces the
entry; the empty-pattern implication is vacuous here. -/
theorem c5_witness :
    ((⟨["name"], some [("name", ColumnData.text ["A", "B"])]⟩ :
        SessionState).df = some [("name", ColumnData.text ["A", "B"])] ∧
     (["name"] : List String) ≠ [] ∧
     lookupChoice [("name", FilterChoice.textSearch "A")] "name" =
       FilterChoice.textSearch "A") ∧
    ((("name", Filter.text "A") ∈
        (create_search_filters
          ⟨["name"], some [("name", ColumnData.text ["A", "B"])]⟩
          ["name"] [("name", FilterChoice.textSearch "A")]).filters ↔
      ("A" : String) ≠ "") ∧
     (("A" : String) = "" →
      (create_search_filters
        ⟨["name"], some [("name", ColumnData.text ["A", "B"])]⟩
        ["name"] [("name", FilterChoice.textSearch "A")]).filters.lookup "name"
        = none)) :=
  ⟨⟨rfl, by decide, by decide⟩,
   c5_text_filter_iff_nonempty_pattern _ _ _ _ _ "A" rfl (by decide)
     (by decide) (by decide) (by decide)⟩

/-- C6: the slider offered for a numeric column uses the observed minimum
as lower bound and default (no clamping to zero), the observed maximum as
upper bound and default, except that when minimum and maximum coincide the
upper bound becomes minimum plus 1000. -/
theorem c6_range_defaults_observed_min_max
    (st : SessionState) (df : Table) (selected : List String)
    (choices : List (String × FilterChoice)) (c : String)
    (ch : Option (ℚ × ℚ)) (vs : List ℚ)
    (hdf : st.df = some df) (hcols : st.columns ≠ [])
    (hsel : selected ≠ []) (hc : c ∈ selected)
    (hch : lookupChoice choices c = .rangeSearch ch)
    (hcol : df.lookup c = some (.numeric vs)) (_hvs : vs ≠ []) :
    sliderFor c vs ∈ (create_search_filters st selected choices).sliders ∧
    (sliderFor c vs).minValue = listMin vs ∧
    (sliderFor c vs).defaultLow = listMin vs ∧
    (sliderFor c vs).defaultHigh = (sliderFor c vs).maxValue ∧
    (listMin vs ≠ listMax vs → (sliderFor c vs).maxValue = listMax vs) ∧
    (listMin vs = listMax vs →
      (sliderFor c vs).maxValue = listMin vs + 1000) := by
  have hres : create_search_filters st selected choices =
      processColumns df choices selected := by
    unfold create_search_filters
    rw [hdf]
    simp [hcols, hsel]
  have hsl : (processColumn df choices c).sliders = [sliderFor c vs] := by
    simp [processColumn, hch, hcol]
  refine ⟨?_, rfl, rfl, rfl, ?_, ?_⟩
  · rw [hres]
    exact mem_processColumns_sliders.mpr
      ⟨c, hc, by rw [hsl]; exact List.mem_singleton_self _⟩
  · intro h
    simp [sliderFor, widenedMax, h]
  · intro h
    simp [sliderFor, widenedMax, h]

/-- Witness for C6 on a degenerate column with negative values: the lower
bound stays at the observed minimum `-5` and the upper bound is widened to
`-5 + 1000`. -/
theorem c6_witness :
    ((⟨["salary"], some [("salary", ColumnData.numeric [-5, -5])]⟩ :
        SessionState).df = some [("salary", ColumnData.numeric [-5, -5])] ∧
     (["salary"] : List String) ≠ [] ∧
     lookupChoice [("salary", FilterChoice.rangeSearch none)] "salary" =
       FilterChoice.rangeSearch none ∧
     ([("salary", ColumnData.numeric [-5, -5])] : Table).lookup "salary" =
       some (ColumnData.numeric [-5, -5]) ∧
     ([(-5 : ℚ), -5] : List ℚ) ≠ []) ∧
    (sliderFor "salary" [-5, -5] ∈
      (create_search_filters
        ⟨["salary"], some [("salary", ColumnData.numeric [-5, -5])]⟩
        ["salary"] [("salary", FilterChoice.rangeSearch none)]).sliders ∧
     (sliderFor "salary" [-5, -5]).minValue = listMin [-5, -5] ∧
     (sliderFor "salary" [-5, -5]).defaultLow = listMin [-5, -5] ∧
     (sliderFor "salary" [-5, -5]).defaultHigh =
       (sliderFor "salary" [-5, -5]).maxValue ∧
     (listMin [(-5 : ℚ), -5] ≠ listMax [-5, -5] →
       (sliderFor "salary" [-5, -5]).maxValue = listMax [-5, -5]) ∧
     (listMin [(-5 : ℚ), -5] = listMax [-5, -5] →
       (sliderFor "salary" [-5, -5]).maxValue = listMin [-5, -5] + 1000)) :=
  ⟨⟨rfl, by decide, by decide, by decide, by decide⟩,
   c6_range_defaults_observed_min_max _ _ _ _ _ none [-5, -5] rfl
     (by decide) (by decide) (by decide) (by decide) (by decide) (by decide)⟩

/-- C7: with a populated session but an empty column selection, the filter
form returns the empty dictionary and shows only the select-a-column
warning; nothing is treated as an error. -/
theorem c7_no_columns_selected_empty_spec
    (st : SessionState) (df : Table)
    (choices : List (String × FilterChoice))
    (hdf : st.df = some df) (hcols : st.columns ≠ []) :
    create_search_filters st [] choices =
      ⟨[], [Warning.selectColumn], []⟩ := by
  unfold create_search_filters
  rw [hdf]
  simp [hcols]

/-- Witness for C7 on a one-column session with nothing selected. -/
theorem c7_witness :
    ((⟨["name"], some [("name", ColumnData.text ["A"])]⟩ :
        SessionState).df = some [("name", ColumnData.text ["A"])] ∧
     (["name"] : List String) ≠ []) ∧
    create_search_filters
        ⟨["name"], some [("name", ColumnData.text ["A"])]⟩ [] [] =
      ⟨[], [Warning.selectColumn], []⟩ :=
  ⟨⟨rfl, by decide⟩,
   c7_no_columns_selected_empty_spec _ _ _ rfl (by decide)⟩

/-- C8: with the login button clicked and the session flag initially
clear, the flag ends up set exactly when the submitted pair equals the
hard-coded credentials, success is shown exactly then, and the error
message is shown exactly otherwise. -/
theorem c8_login_iff_hardcoded_credentials (u p : String) :
    (render_login_page false true u p).loggedIn =
      (u == hardcodedUsername && p == hardcodedPassword) ∧
    (render_login_page false true u p).successShown =
      (u == hardcodedUsername && p == hardcodedPassword) ∧
    (render_login_page false true u p).errorShown =
      !(u == hardcodedUsername && p == hardcodedPassword) := by
  by_cases hu : u = hardcodedUsername <;>
    by_cases hp : p = hardcodedPassword <;>
      simp [render_login_page, hu, hp]

/-- C9: the salary conversion is total and never produces a negative
value: on every input string it yields either `None` or a non-negative
number, because only digits and commas survive the cleaning and a failed
parse of the residue is mapped to `None`. -/
theorem c9_convert_salary_total_nonneg (s : String) :
    convert_salary_to_number s = none ∨
      ∃ q : ℚ, convert_salary_to_number s = some q ∧ 0 ≤ q := by
  by_cases h :
      ((s.toList.filter (fun c => c.isDigit || c == ',')).filter
        (fun c => c != ',')).isEmpty
  · left
    simp only [convert_salary_to_number]
    rw [if_pos h]
  · right
    refine ⟨(digitsToNat
        ((s.toList.filter (fun c => c.isDigit || c == ',')).filter
          (fun c => c != ',')) : ℚ), ?_, Nat.cast_nonneg _⟩
    simp only [convert_salary_to_number]
    rw [if_neg h]

/-- C10: before a successful upload has populated the session (no stored
dataframe or no stored columns), the filter form warns to upload first and
returns the empty dictionary, so no filter entry can be built. -/
theorem c10_no_upload_empty_spec (st : SessionState) (selected : List String)
    (choices : List (String × FilterChoice))
    (h : st.df = none ∨ st.columns = []) :
    create_search_filters st selected choices =
      ⟨[], [Warning.uploadFirst], []⟩ := by
  rcases h with h | h
  · unfold create_search_filters
    rw [h]
  · cases hdf : st.df with
    | none =>
        unfold create_search_filters
        rw [hdf]
    | some df =>
        unfold create_search_filters
        rw [hdf]
        simp [h]

/-- Witness for C10 on the fresh session state (no dataframe, no
columns). -/
theorem c10_witness :
    ((⟨[], none⟩ : SessionState).df = none ∨
      (⟨[], none⟩ : SessionState).columns = []) ∧
    create_search_filters ⟨[], none⟩ ["name"] [] =
      ⟨[], [Warning.uploadFirst], []⟩ :=
  ⟨Or.inl rfl, c10_no_upload_empty_spec _ _ _ (Or.inl rfl)⟩

end Spark
